import Mathlib

/-!
Verification of the multi-backend similarity-search core of the POI search
service, shallowly embedded from src/backend/main.py (the current service),
with the text-score formula of the older variant src/backend/mainold.py
embedded alongside for comparison. Similarity scores are modelled as
rationals; the HTTP layer is modelled by Except String with the detail
string of the raised HTTPException as the error value.
-/

/-- One hit returned by the vector index (a qdrant ScoredPoint): a raw
similarity score and the payload field "path" (a missing payload key gives
none, mirroring h.payload.get("path")). -/
structure Hit where
  score : ℚ
  payload_path : Option String
deriving DecidableEq

/-- One entry of MODELS_CONFIG in main.py: model id, qdrant collection,
display name, score threshold and multiplier. -/
structure ModelConfig where
  id : String
  collection : String
  name : String
  threshold : ℚ
  multiplier : ℚ
deriving DecidableEq

/-- The base_clip entry of MODELS_CONFIG (main.py lines 64-70). -/
def base_clip_config : ModelConfig :=
  { id := "clip-ViT-B-32", collection := "poi_base_clip",
    name := "Base CLIP (ViT-B-32)", threshold := 0.22, multiplier := 2.5 }

/-- The enhanced_clip_l entry of MODELS_CONFIG (main.py lines 71-77). -/
def enhanced_clip_l_config : ModelConfig :=
  { id := "clip-ViT-L-14", collection := "poi_enhanced_clip_l",
    name := "Enhanced CLIP-L (ViT-L-14)", threshold := 0.20, multiplier := 1.9 }

/-- The siglip2 entry of MODELS_CONFIG (main.py lines 78-84). -/
def siglip2_config : ModelConfig :=
  { id := "google/siglip2-base-patch16-224", collection := "poi_siglip2",
    name := "SigLIP 2 (Google)", threshold := 0.01, multiplier := 12.0 }

/-- MODELS_CONFIG from main.py lines 63-85. -/
def MODELS_CONFIG : List (String × ModelConfig) :=
  [ ("base_clip", base_clip_config),
    ("enhanced_clip_l", enhanced_clip_l_config),
    ("siglip2", siglip2_config) ]

/-- One search result dict as built in perform_search (main.py lines
175-179). -/
structure SearchResult where
  path : Option String
  score : ℚ
  raw_score : ℚ
deriving DecidableEq

/-- The binary min builtin of Python applied to rationals, written out so
that it evaluates by kernel reduction. -/
def pymin (a b : ℚ) : ℚ :=
  if a ≤ b then a else b

theorem pymin_eq_min (a b : ℚ) : pymin a b = min a b :=
  (min_def a b).symm

/-- The visual_score expression of main.py line 174:
(h.score * multiplier) + 0.05 if not is_image else (h.score * 1.5). -/
def visual_score (cfg : ModelConfig) (is_image : Bool) (s : ℚ) : ℚ :=
  if is_image then s * 1.5 else s * cfg.multiplier + 0.05

/-- The result dict built for one retained hit (main.py lines 175-179). -/
def mkResult (cfg : ModelConfig) (is_image : Bool) (h : Hit) : SearchResult :=
  { path := h.payload_path,
    score := pymin 0.99 (visual_score cfg is_image h.score),
    raw_score := h.score }

/-- The results loop of perform_search (main.py lines 171-179): keep each
hit whose raw score is at least the threshold of the backend, rescale it,
drop the rest. -/
def processHits (cfg : ModelConfig) (is_image : Bool) (hits : List Hit) :
    List SearchResult :=
  hits.filterMap fun h =>
    if cfg.threshold ≤ h.score then some (mkResult cfg is_image h) else none

/-- A configured backend as iterated by perform_search: its key in the
models dict, its entry of MODELS_CONFIG, and the encode-plus-index-query
step of the try block (main.py lines 153-166) abstracted as a function
from the inputs and the top_k limit to either the hit list returned by
qdrant_client.query_points or the exception it raised. -/
def Backend (α : Type) : Type :=
  String × ModelConfig × (α → Nat → Except String (List Hit))

/-- The body of the per-backend loop of perform_search (main.py lines
150-186): on success the thresholded, rescaled results; on any exception
an empty list for that backend. -/
def runBackend {α : Type} (inputs : α) (is_image : Bool) (top_k : Nat)
    (b : Backend α) : String × List SearchResult :=
  match b.2.2 inputs top_k with
  | Except.ok hits => (b.1, processHits b.2.1 is_image hits)
  | Except.error _ => (b.1, [])

/-- perform_search (main.py lines 144-188): raise 500 when the qdrant
client is not connected, otherwise build the mapping from each loaded
backend key to its own result list, isolating per-backend exceptions. -/
def perform_search {α : Type} (qdrant_connected : Bool)
    (backends : List (Backend α)) (inputs : α) (is_image : Bool)
    (top_k : Nat) : Except String (List (String × List SearchResult)) :=
  if qdrant_connected then
    Except.ok (backends.map (runBackend inputs is_image top_k))
  else
    Except.error "Database not connected"

/-- res.get(key, []) on the result mapping. -/
def dictGet (res : List (String × List SearchResult)) (key : String) :
    List SearchResult :=
  match res.lookup key with
  | some v => v
  | none => []

/-- The /search/all endpoint (main.py lines 198-202): reject the query
with a 400 when the profanity predicate matches, otherwise run all
backends. The contains_profanity check of the better_profanity library is
an external dependency and is abstracted as the predicate prof. -/
def search_all (prof : String → Bool) (qdrant_connected : Bool)
    (backends : List (Backend String)) (query : String) (top_k : Nat) :
    Except String (List (String × List SearchResult)) :=
  if prof query then Except.error "Inappropriate language detected"
  else perform_search qdrant_connected backends query false top_k

/-- The /search/text endpoint (main.py lines 204-209): run all backends,
then return the requested model entry, or the base_clip entry when the
requested model_type is not a key of the mapping. -/
def search_text (qdrant_connected : Bool) (backends : List (Backend String))
    (query : String) (model_type : String) (top_k : Nat) :
    Except String (String × List SearchResult) :=
  match perform_search qdrant_connected backends query false top_k with
  | Except.error e => Except.error e
  | Except.ok res =>
      if (res.lookup model_type).isNone then
        Except.ok (query, dictGet res "base_clip")
      else
        Except.ok (query, dictGet res model_type)

/-- The /search/image endpoint (main.py lines 211-219): run all backends
on the decoded image; only the model_type == "all" branch returns a value,
any other model_type falls off the end of the function and produces a
None body, modelled as none. -/
def search_image {α : Type} (qdrant_connected : Bool)
    (backends : List (Backend α)) (image : α) (model_type : String)
    (top_k : Nat) :
    Except String (Option (List (String × List SearchResult))) :=
  match perform_search qdrant_connected backends image true top_k with
  | Except.error e => Except.error e
  | Except.ok res =>
      Except.ok (if model_type = "all" then some res else none)

/-- The score of one text-search result in the older service variant
(mainold.py line 94): min(0.99, (h.score * 2.5) + 0.1). -/
def mainold_text_score (raw : ℚ) : ℚ :=
  pymin 0.99 (raw * 2.5 + 0.1)

-- Sanity checks of the embedding on concrete inputs.
example :
    processHits base_clip_config false [⟨0.30, some "a"⟩, ⟨0.10, some "b"⟩]
      = [⟨some "a", 0.80, 0.30⟩] := by
  norm_num [processHits, base_clip_config, mkResult, visual_score, pymin,
    List.filterMap]

example : mainold_text_score 0.30 = 0.85 := by
  norm_num [mainold_text_score, pymin]

/-! ### Basic lemmas about the embedding -/

theorem mkResult_raw_score (cfg : ModelConfig) (is_image : Bool) (h : Hit) :
    (mkResult cfg is_image h).raw_score = h.score := rfl

theorem mkResult_score (cfg : ModelConfig) (is_image : Bool) (h : Hit) :
    (mkResult cfg is_image h).score
      = pymin 0.99 (visual_score cfg is_image h.score) := rfl

/-- The results loop is a threshold filter followed by the rescaling map. -/
theorem processHits_eq (cfg : ModelConfig) (is_image : Bool)
    (hits : List Hit) :
    processHits cfg is_image hits
      = (hits.filter fun h => decide (cfg.threshold ≤ h.score)).map
          (mkResult cfg is_image) := by
  induction hits with
  | nil => rfl
  | cons h t ih =>
      by_cases hc : cfg.threshold ≤ h.score <;>
        simp [processHits, List.filterMap_cons, List.filter_cons, hc,
          ← ih, processHits]

/-- Inversion for membership in the per-backend result list. -/
theorem mem_processHits {cfg : ModelConfig} {is_image : Bool}
    {hits : List Hit} {r : SearchResult}
    (hr : r ∈ processHits cfg is_image hits) :
    ∃ h ∈ hits, cfg.threshold ≤ h.score ∧ r = mkResult cfg is_image h := by
  rw [processHits_eq] at hr
  rcases List.mem_map.1 hr with ⟨h, hmem, rfl⟩
  rcases List.mem_filter.1 hmem with ⟨hh, hc⟩
  exact ⟨h, hh, by simpa using hc, rfl⟩

theorem perform_search_ok {α : Type} (backends : List (Backend α))
    (inputs : α) (is_image : Bool) (top_k : Nat) :
    perform_search true backends inputs is_image top_k
      = Except.ok (backends.map (runBackend inputs is_image top_k)) := rfl

theorem perform_search_ok_inv {α : Type} {qc : Bool}
    {backends : List (Backend α)} {inputs : α} {is_image : Bool}
    {top_k : Nat} {m : List (String × List SearchResult)}
    (hm : perform_search qc backends inputs is_image top_k = Except.ok m) :
    qc = true ∧ m = backends.map (runBackend inputs is_image top_k) := by
  cases qc with
  | false => simp [perform_search] at hm
  | true => exact ⟨rfl, by simpa [perform_search] using hm.symm⟩

theorem runBackend_fst {α : Type} (inputs : α) (is_image : Bool)
    (top_k : Nat) (b : Backend α) :
    (runBackend inputs is_image top_k b).1 = b.1 := by
  unfold runBackend
  cases b.2.2 inputs top_k <;> rfl

theorem runBackend_of_ok {α : Type} (inputs : α) (is_image : Bool)
    (top_k : Nat) (b : Backend α) (hits : List Hit)
    (h : b.2.2 inputs top_k = Except.ok hits) :
    runBackend inputs is_image top_k b
      = (b.1, processHits b.2.1 is_image hits) := by
  unfold runBackend
  rw [h]

theorem runBackend_of_error {α : Type} (inputs : α) (is_image : Bool)
    (top_k : Nat) (b : Backend α) (e : String)
    (h : b.2.2 inputs top_k = Except.error e) :
    runBackend inputs is_image top_k b = (b.1, []) := by
  unfold runBackend
  rw [h]

/-! ### Claim theorems -/

/-- C2: for every search, text or image, and every backend, no result
whose raw score is below that backend score_threshold appears in the
output mapping: the threshold is compared against the raw score and
sub-threshold hits are dropped entirely. -/
theorem claim_C2 {α : Type} (qc : Bool) (backends : List (Backend α))
    (inputs : α) (is_image : Bool) (top_k : Nat)
    (m : List (String × List SearchResult))
    (hm : perform_search qc backends inputs is_image top_k = Except.ok m) :
    List.Forall₂ (fun b e => ∀ r ∈ e.2, b.2.1.threshold ≤ r.raw_score)
      backends m := by
  obtain ⟨-, rfl⟩ := perform_search_ok_inv hm
  rw [List.forall₂_map_right_iff]
  refine List.forall₂_same.2 fun b hb => ?_
  intro r hr
  cases hq : b.2.2 inputs top_k with
  | ok hits =>
      rw [runBackend_of_ok inputs is_image top_k b hits hq] at hr
      obtain ⟨h, -, hth, rfl⟩ := mem_processHits hr
      exact hth
  | error e =>
      rw [runBackend_of_error inputs is_image top_k b e hq] at hr
      simp at hr

/-- A demonstration base_clip backend whose index query succeeds with two
hits, one above and one below the threshold. -/
def demo_backend_ok : Backend String :=
  ("base_clip", base_clip_config,
    fun _ _ => Except.ok [⟨0.30, some "img1"⟩, ⟨0.10, some "img2"⟩])

/-- The result mapping the demonstration backend produces on a text
query. -/
def demo_mapping : List (String × List SearchResult) :=
  [("base_clip", [⟨some "img1", 0.80, 0.30⟩])]

/-- Witness for C2: one base_clip backend answering with raw scores 0.30
and 0.10; only the 0.30 hit survives and it is above the threshold. -/
theorem claim_C2_witness :
    List.Forall₂ (fun b e => ∀ r ∈ e.2, b.2.1.threshold ≤ r.raw_score)
      [demo_backend_ok] demo_mapping :=
  claim_C2 true [demo_backend_ok] "blonde hair" false 5 demo_mapping
    (by norm_num [perform_search, runBackend, processHits, mkResult,
      visual_score, pymin, base_clip_config, demo_backend_ok, demo_mapping,
      List.filterMap])

/-- C3: an all-backends search with the database connected never fails as
a whole, returns exactly one entry per configured backend key in order,
each entry is determined by its own backend alone, and a backend whose
encode-or-query step raises contributes the empty list. -/
theorem claim_C3 {α : Type} (backends : List (Backend α)) (inputs : α)
    (is_image : Bool) (top_k : Nat) :
    ∃ m, perform_search true backends inputs is_image top_k = Except.ok m
      ∧ m.map Prod.fst = backends.map (fun b => b.1)
      ∧ List.Forall₂ (fun b e => e = runBackend inputs is_image top_k b)
          backends m
      ∧ ∀ b ∈ backends, ∀ e, b.2.2 inputs top_k = Except.error e →
          runBackend inputs is_image top_k b = (b.1, []) := by
  refine ⟨_, perform_search_ok backends inputs is_image top_k, ?_, ?_, ?_⟩
  · rw [List.map_map]
    exact List.map_congr_left fun b _ => runBackend_fst inputs is_image top_k b
  · exact List.forall₂_map_right_iff.2 (List.forall₂_same.2 fun b _ => rfl)
  · exact fun b _ e he => runBackend_of_error inputs is_image top_k b e he

/-- The scoring constants of every configured backend are nonnegative. -/
theorem config_constants_nonneg (cfg : ModelConfig)
    (hcfg : cfg ∈ MODELS_CONFIG.map Prod.snd) :
    0 ≤ cfg.threshold ∧ 0 ≤ cfg.multiplier := by
  simp only [ MODELS_CONFIG, List.map_cons, List.map_nil, List.mem_cons,
    List.not_mem_nil, or_false] at hcfg
  rcases hcfg with rfl | rfl | rfl <;>
    norm_num [base_clip_config, enhanced_clip_l_config, siglip2_config]

/-- C5: every display score of a result returned for a configured backend
lies in [0, 0.99], and for a fixed backend and fixed query kind the
normalization map is monotonically non-decreasing in the raw score. -/
theorem claim_C5 (cfg : ModelConfig)
    (hcfg : cfg ∈ MODELS_CONFIG.map Prod.snd) (is_image : Bool)
    (hits : List Hit) :
    (∀ r ∈ processHits cfg is_image hits, 0 ≤ r.score ∧ r.score ≤ 0.99)
    ∧ ∀ s t : ℚ, s ≤ t →
        pymin 0.99 (visual_score cfg is_image s)
          ≤ pymin 0.99 (visual_score cfg is_image t) := by
  obtain ⟨hth, hmul⟩ := config_constants_nonneg cfg hcfg
  constructor
  · intro r hr
    obtain ⟨h, -, hsc, rfl⟩ := mem_processHits hr
    have h0 : (0 : ℚ) ≤ h.score := le_trans hth hsc
    have hv : 0 ≤ visual_score cfg is_image h.score := by
      unfold visual_score
      split
      · exact mul_nonneg h0 (by norm_num)
      · have := mul_nonneg h0 hmul
        linarith
    rw [mkResult_score, pymin_eq_min]
    exact ⟨le_min (by norm_num) hv, min_le_left _ _⟩
  · intro s t hst
    rw [pymin_eq_min, pymin_eq_min]
    refine min_le_min le_rfl ?_
    unfold visual_score
    split
    · exact mul_le_mul_of_nonneg_right hst (by norm_num)
    · have := mul_le_mul_of_nonneg_right hst hmul
      linarith

/-- Witness for C5 at the base_clip backend and one concrete hit list. -/
theorem claim_C5_witness :
    (∀ r ∈ processHits base_clip_config false
        [⟨0.30, some "img1"⟩, ⟨0.10, some "img2"⟩],
      0 ≤ r.score ∧ r.score ≤ 0.99)
    ∧ ∀ s t : ℚ, s ≤ t →
        pymin 0.99 (visual_score base_clip_config false s)
          ≤ pymin 0.99 (visual_score base_clip_config false t) :=
  claim_C5 base_clip_config (by simp [ MODELS_CONFIG]) false
    [⟨0.30, some "img1"⟩, ⟨0.10, some "img2"⟩]

/-- C9: when the hit list handed over by the index client respects its
contract, at most top_k hits ordered by descending raw score, the
backend result list has length at most top_k, is ordered by descending
raw score, and its raw scores are a subsequence of the raw scores of the
hits: the ordering is inherited, with no additional tie-break. -/
theorem claim_C9 (cfg : ModelConfig) (is_image : Bool) (hits : List Hit)
    (top_k : Nat) (hlen : hits.length ≤ top_k)
    (hsort : hits.Pairwise fun a b => b.score ≤ a.score) :
    (processHits cfg is_image hits).length ≤ top_k
    ∧ (processHits cfg is_image hits).Pairwise
        (fun a b => b.raw_score ≤ a.raw_score)
    ∧ ((processHits cfg is_image hits).map SearchResult.raw_score).Sublist
        (hits.map Hit.score) := by
  rw [processHits_eq]
  refine ⟨?_, ?_, ?_⟩
  · rw [List.length_map]
    exact le_trans (List.length_filter_le _ hits) hlen
  · rw [List.pairwise_map]
    exact hsort.sublist (List.filter_sublist hits)
  · rw [List.map_map]
    have hcomp :
        (hits.filter fun h => decide (cfg.threshold ≤ h.score)).map
            (SearchResult.raw_score ∘ mkResult cfg is_image)
          = (hits.filter fun h => decide (cfg.threshold ≤ h.score)).map
              Hit.score :=
      List.map_congr_left fun h _ => rfl
    rw [hcomp]
    exact (List.filter_sublist hits).map Hit.score

/-- Witness for C9 at a concrete sorted two-hit list and top_k = 5. -/
theorem claim_C9_witness :
    (processHits base_clip_config false
        [⟨0.30, some "img1"⟩, ⟨0.10, some "img2"⟩]).length ≤ 5
    ∧ (processHits base_clip_config false
        [⟨0.30, some "img1"⟩, ⟨0.10, some "img2"⟩]).Pairwise
        (fun a b => b.raw_score ≤ a.raw_score)
    ∧ ((processHits base_clip_config false
        [⟨0.30, some "img1"⟩, ⟨0.10, some "img2"⟩]).map
          SearchResult.raw_score).Sublist
        (([⟨0.30, some "img1"⟩, ⟨0.10, some "img2"⟩] : List Hit).map
          Hit.score) :=
  claim_C9 base_clip_config false [⟨0.30, some "img1"⟩, ⟨0.10, some "img2"⟩]
    5 (by norm_num)
    (by norm_num [List.pairwise_cons])

/-- C10: a call to the search_image endpoint with a model_type other than
"all", including the default "base_clip", produces a None body: only the
model_type == "all" branch returns a value. -/
theorem claim_C10 {α : Type} (backends : List (Backend α)) (image : α)
    (model_type : String) (top_k : Nat) (hmt : model_type ≠ "all") :
    search_image true backends image model_type top_k = Except.ok none
    ∧ ∃ res, search_image true backends image "all" top_k
        = Except.ok (some res) := by
  constructor
  · unfold search_image
    rw [perform_search_ok]
    simp [hmt]
  · refine ⟨backends.map (runBackend image true top_k), ?_⟩
    unfold search_image
    rw [perform_search_ok]
    simp

/-- Witness for C10 at the default model_type "base_clip". -/
theorem claim_C10_witness :
    search_image true ([] : List (Backend Unit)) () "base_clip" 5
        = Except.ok none
    ∧ ∃ res, search_image true ([] : List (Backend Unit)) () "all" 5
        = Except.ok (some res) :=
  claim_C10 [] () "base_clip" 5 (by decide)

/-- C1 as stated fails on perform_search of main.py: with the base_clip
backend (threshold 0.22, multiplier 2.5) a retained text hit with raw
score 0.30 is returned with display score 0.80, which differs from
min(0.99, 0.30 * 2.5 + 0.1) = 0.85: the additive offset in main.py line
174 is 0.05, not 0.1. -/
theorem claim_C1_counterexample :
    (processHits base_clip_config false [⟨0.30, some "img1"⟩]).map
        SearchResult.score = [0.80]
    ∧ (0.80 : ℚ) ≠ min 0.99 (0.30 * 2.5 + 0.1) := by
  constructor
  · norm_num [processHits, base_clip_config, mkResult, visual_score, pymin,
      List.filterMap]
  · rw [show min (0.99 : ℚ) (0.30 * 2.5 + 0.1) = 0.85 by
      rw [min_def]; norm_num]
    norm_num

/-- C1 (amended): for every text-query hit retained for a backend with
multiplier m, the returned display score equals
min(0.99, raw_score * m + 0.05); with multiplier 2.5 a hit with raw score
0.30 yields 0.80, not 0.85. The offset 0.1 of the claim holds only of the
older variant mainold.py, whose search_text maps raw score 0.30 to 0.85. -/
theorem claim_C1_amended (cfg : ModelConfig) (hits : List Hit)
    (r : SearchResult) (hr : r ∈ processHits cfg false hits) :
    r.score = min 0.99 (r.raw_score * cfg.multiplier + 0.05)
    ∧ mainold_text_score 0.30 = 0.85 := by
  obtain ⟨h, -, -, rfl⟩ := mem_processHits hr
  constructor
  · rw [mkResult_score, pymin_eq_min]
    rfl
  · rw [mainold_text_score, pymin_eq_min, min_def]
    norm_num

/-- Witness for the amended C1 at the base_clip backend and a raw score
of 0.30. -/
theorem claim_C1_amended_witness :
    (⟨some "img1", 0.80, 0.30⟩ : SearchResult).score
        = min 0.99 ((⟨some "img1", 0.80, 0.30⟩ : SearchResult).raw_score
            * base_clip_config.multiplier + 0.05)
    ∧ mainold_text_score 0.30 = 0.85 :=
  claim_C1_amended base_clip_config [⟨0.30, some "img1"⟩]
    ⟨some "img1", 0.80, 0.30⟩
    (by norm_num [processHits, base_clip_config, mkResult, visual_score,
      pymin, List.filterMap])

/-- C4 as stated fails on perform_search of main.py: for the siglip2
backend, whose configured multiplier is 12.0, an image hit with raw score
0.05 is returned with display score 0.075 = 0.05 * 1.5, which differs
from min(0.99, 0.05 * 12.0) = 0.6: the image branch of main.py line 174
multiplies by the constant 1.5, ignoring the per-backend multiplier. -/
theorem claim_C4_counterexample :
    (processHits siglip2_config true [⟨0.05, some "img1"⟩]).map
        SearchResult.score = [0.075]
    ∧ (0.075 : ℚ) ≠ min 0.99 (0.05 * siglip2_config.multiplier) := by
  constructor
  · norm_num [processHits, siglip2_config, mkResult, visual_score, pymin,
      List.filterMap]
  · rw [show min (0.99 : ℚ) (0.05 * siglip2_config.multiplier) = 0.6 by
      rw [min_def]; norm_num [siglip2_config]]
    norm_num

/-- C4 (amended): for every image-query hit retained for any backend, the
returned display score equals min(0.99, raw_score * 1.5), with no additive
offset; the factor 1.5 is one constant shared by all backends rather than
the per-backend configured multiplier. -/
theorem claim_C4_amended (cfg : ModelConfig) (hits : List Hit)
    (r : SearchResult) (hr : r ∈ processHits cfg true hits) :
    r.score = min 0.99 (r.raw_score * 1.5) := by
  obtain ⟨h, -, -, rfl⟩ := mem_processHits hr
  rw [mkResult_score, pymin_eq_min]
  rfl

/-- Witness for the amended C4 at the siglip2 backend and a raw score of
0.05. -/
theorem claim_C4_amended_witness :
    (⟨some "img1", 0.075, 0.05⟩ : SearchResult).score
        = min 0.99 ((⟨some "img1", 0.075, 0.05⟩ : SearchResult).raw_score
            * 1.5) :=
  claim_C4_amended siglip2_config [⟨0.05, some "img1"⟩]
    ⟨some "img1", 0.075, 0.05⟩
    (by norm_num [processHits, siglip2_config, mkResult, visual_score,
      pymin, List.filterMap])

/-- A concrete instance of the profanity predicate, flagging exactly the
query "badword". -/
def demo_profanity (q : String) : Bool := q = "badword"

/-- C6 as stated fails on main.py: there is no numeric-only, length or
repetition validation anywhere on the text-search path. With a profanity
predicate that flags none of these strings, the all-backends endpoint
accepts "12345", "ab" and "aaaaaaaa" and runs the search, and the
single-backend text endpoint accepts "12345" with no validation at all. -/
theorem claim_C6_counterexample :
    search_all demo_profanity true [] "12345" 5 = Except.ok []
    ∧ search_all demo_profanity true [] "ab" 5 = Except.ok []
    ∧ search_all demo_profanity true [] "aaaaaaaa" 5 = Except.ok []
    ∧ search_text true [] "12345" "base_clip" 5
        = Except.ok ("12345", []) :=
  ⟨rfl, rfl, rfl, rfl⟩

/-- C6 (amended): the only text-query validation is the profanity gate of
the all-backends endpoint: a query the predicate flags is rejected with
"Inappropriate language detected", any other query is passed on unchanged
to the search across all backends, and the single-backend text endpoint
applies no validation and never rejects a query. -/
theorem claim_C6_amended (prof : String → Bool)
    (backends : List (Backend String)) (query : String) (top_k : Nat)
    (hq : prof query = false) :
    search_all prof true backends query top_k
        = perform_search true backends query false top_k
    ∧ (∀ q2, prof q2 = true →
        search_all prof true backends q2 top_k
          = Except.error "Inappropriate language detected")
    ∧ ∀ mt q3, ∃ v, search_text true backends q3 mt top_k
        = Except.ok v := by
  refine ⟨?_, ?_, ?_⟩
  · simp [search_all, hq]
  · intro q2 h2
    simp [search_all, h2]
  · intro mt q3
    unfold search_text
    rw [perform_search_ok]
    dsimp only
    split
    · exact ⟨_, rfl⟩
    · exact ⟨_, rfl⟩

/-- Witness for the amended C6 at a normal sentence and the demonstration
profanity predicate. -/
theorem claim_C6_amended_witness :
    search_all demo_profanity true [] "a person wearing glasses" 5
        = perform_search true [] "a person wearing glasses" false 5
    ∧ (∀ q2, demo_profanity q2 = true →
        search_all demo_profanity true [] q2 5
          = Except.error "Inappropriate language detected")
    ∧ ∀ mt q3, ∃ v, search_text true [] q3 mt 5 = Except.ok v :=
  claim_C6_amended demo_profanity [] "a person wearing glasses" 5
    (by decide)

/-- Modelled from the spec: the Local Fallback Matcher of spec section 4.4
is absent from the source; src/backend/main.py has no local brute-force
search and an index failure just yields an empty list. Per the spec the
matcher scores every corpus row by cosine similarity against the query
vector; the spec fixes embedding vectors as unit L2-normalized, so cosine
similarity coincides with this dot product, which keeps the model within
the rationals. -/
def dotProduct (a b : List ℚ) : ℚ :=
  (List.zipWith (fun x y => x * y) a b).sum

/-- Modelled from the spec: stable insertion of one scored row into a
descending-sorted list; an earlier row is kept ahead of later rows with an
equal score. -/
def insertDesc (x : ℚ × Nat) : List (ℚ × Nat) → List (ℚ × Nat)
  | [] => [x]
  | y :: ys => if x.1 < y.1 then y :: insertDesc x ys else x :: y :: ys

/-- Modelled from the spec: stable descending sort by score. -/
def sortDesc : List (ℚ × Nat) → List (ℚ × Nat)
  | [] => []
  | x :: xs => insertDesc x (sortDesc xs)

/-- Modelled from the spec: the Local Fallback Matcher contract of spec
section 4.4: cosine-score every corpus row, sort descending with ties in
insertion order, return the first top_k pairs (raw_score,
index_position). -/
def localFallbackSearch (query_vector : List ℚ) (corpus : List (List ℚ))
    (top_k : Nat) : List (ℚ × Nat) :=
  (sortDesc (((corpus.map (dotProduct query_vector)).enum).map
    fun p => (p.2, p.1))).take top_k

/-- A demonstration backend whose encode-or-query step always raises. -/
def demo_backend_err : Backend String :=
  ("base_clip", base_clip_config,
    fun _ _ => Except.error "index unreachable")

/-- C7 as stated fails on main.py: with the index query of the single
configured backend raising, the single-backend text search neither runs a
local fallback search nor surfaces a service error: it succeeds with an
empty result list, although in-memory fallback vectors (modelled from the
spec) would produce hits for the same request. -/
theorem claim_C7_counterexample :
    search_text true [demo_backend_err] "blonde hair" "base_clip" 5
      = Except.ok ("blonde hair", [])
    ∧ localFallbackSearch [1, 0] [[1, 0], [0, 1]] 5 = [(1, 0), (0, 1)] := by
  constructor
  · rfl
  · norm_num [localFallbackSearch, dotProduct, sortDesc, insertDesc,
      List.enum, List.enumFrom]

/-- C7 (amended): there is no local fallback in main.py: when the
encode-or-query step of a backend raises, that entry of the result mapping
is simply the empty list, the single-backend text request still succeeds,
and the only service error on the search path is "Database not connected",
raised exactly when the qdrant client is not connected. -/
theorem claim_C7_amended (backends : List (Backend String))
    (query model_type : String) (top_k : Nat) (b : Backend String)
    (e : String) (he : b.2.2 query top_k = Except.error e) :
    (runBackend query false top_k b).2 = []
    ∧ (∀ mt, search_text false backends query mt top_k
        = Except.error "Database not connected")
    ∧ ∃ v, search_text true backends query model_type top_k
        = Except.ok v := by
  refine ⟨?_, ?_, ?_⟩
  · rw [runBackend_of_error query false top_k b e he]
  · intro mt
    rfl
  · unfold search_text
    rw [perform_search_ok]
    dsimp only
    split
    · exact ⟨_, rfl⟩
    · exact ⟨_, rfl⟩

/-- Witness for the amended C7 at a concrete always-failing backend. -/
theorem claim_C7_amended_witness :
    (runBackend "blonde hair" false 5 demo_backend_err).2 = []
    ∧ (∀ mt, search_text false [demo_backend_err] "blonde hair" mt 5
        = Except.error "Database not connected")
    ∧ ∃ v, search_text true [demo_backend_err] "blonde hair" "base_clip" 5
        = Except.ok v :=
  claim_C7_amended [demo_backend_err] "blonde hair" "base_clip" 5
    demo_backend_err "index unreachable" rfl

/-- C8 as stated fails on main.py: a search_text request naming the
unknown backend "no_such_model" does not fail with a client error: it
silently returns the base_clip results. -/
theorem claim_C8_counterexample :
    search_text true [demo_backend_ok] "blonde hair" "no_such_model" 5
      = Except.ok ("blonde hair", [⟨some "img1", 0.80, 0.30⟩]) := by
  have h1 : perform_search true [demo_backend_ok] "blonde hair" false 5
      = Except.ok demo_mapping := by
    norm_num [perform_search, runBackend, demo_backend_ok, processHits,
      mkResult, visual_score, pymin, base_clip_config, demo_mapping,
      List.filterMap]
  unfold search_text
  rw [h1]
  rfl

/-- C8 (amended): a search_text request naming a backend that is not a key
of the result mapping does not fail: it silently returns the base_clip
entry of the mapping (the empty list when that is missing too) instead of
a client error. -/
theorem claim_C8_amended (backends : List (Backend String))
    (query model_type : String) (top_k : Nat)
    (res : List (String × List SearchResult))
    (hres : perform_search true backends query false top_k = Except.ok res)
    (hmt : res.lookup model_type = none) :
    search_text true backends query model_type top_k
      = Except.ok (query, dictGet res "base_clip") := by
  unfold search_text
  rw [hres]
  simp [hmt]

/-- Witness for the amended C8 at the demonstration backend and the
unknown model key "no_model". -/
theorem claim_C8_amended_witness :
    search_text true [demo_backend_ok] "blonde hair" "no_model" 5
      = Except.ok ("blonde hair", dictGet demo_mapping "base_clip") :=
  claim_C8_amended [demo_backend_ok] "blonde hair" "no_model" 5 demo_mapping
    (by norm_num [perform_search, runBackend, demo_backend_ok, processHits,
      mkResult, visual_score, pymin, base_clip_config, demo_mapping,
      List.filterMap])
    rfl
